import Mathlib

/-!
Verification development for the CSVtoMySQL repository
(`src/CSVtoMySQL.py`).

The development shallowly embeds the program's core logic:

* `generate_row_hash` — the row fingerprinter (MD5 hex digest of the
  pipe-joined string coercion of a row's values);
* the pandas-level data model the program operates on (cell values as
  produced by `pd.read_csv`, dtype-based column typing);
* `create_table_from_csv`, `get_existing_hashes`, `import_csv_initial`,
  `append_new_rows` — the sync engine over an abstract store state;
* `monitor_csv_and_sync` — one polling iteration plus the loop over a
  finite trace of filesystem observations.

External collaborators (MySQL, pandas, hashlib, the filesystem) are
modelled at their interface boundary: the store is a table that may be
absent or hold a list of rows tagged with their `row_hash` (the column
carries a UNIQUE constraint, and every insert is `INSERT IGNORE`, so an
insert reports rowcount 1 exactly when its hash is not yet present);
`hashlib.md5` is embedded as the full MD5 algorithm over byte lists;
file resolution is an `Option` input (the file the run resolved, if any).
-/

namespace CSVtoMySQL

/-! ### MD5 (model of Python's `hashlib.md5(...).hexdigest()`)

MD5 per RFC 1321, over `List Nat` of bytes, with 32-bit words as `Nat`
reduced `% 2^32`.  `hexdigest` is the 32 lowercase hex characters of the
16 digest bytes. -/

def w32 (n : Nat) : Nat := n % 4294967296

def rotl32 (x c : Nat) : Nat :=
  w32 ((w32 x) <<< c + (w32 x) >>> (32 - c))

def md5K : List Nat :=
  [3614090360, 3905402710, 606105819, 3250441966, 4118548399, 1200080426,
   2821735955, 4249261313, 1770035416, 2336552879, 4294925233, 2304563134,
   1804603682, 4254626195, 2792965006, 1236535329, 4129170786, 3225465664,
   643717713, 3921069994, 3593408605, 38016083, 3634488961, 3889429448,
   568446438, 3275163606, 4107603335, 1163531501, 2850285829, 4243563512,
   1735328473, 2368359562, 4294588738, 2272392833, 1839030562, 4259657740,
   2763975236, 1272893353, 4139469664, 3200236656, 681279174, 3936430074,
   3572445317, 76029189, 3654602809, 3873151461, 530742520, 3299628645,
   4096336452, 1126891415, 2878612391, 4237533241, 1700485571, 2399980690,
   4293915773, 2240044497, 1873313359, 4264355552, 2734768916, 1309151649,
   4149444226, 3174756917, 718787259, 3951481745]

def md5S : List Nat :=
  [7, 12, 17, 22, 7, 12, 17, 22, 7, 12, 17, 22, 7, 12, 17, 22,
   5, 9, 14, 20, 5, 9, 14, 20, 5, 9, 14, 20, 5, 9, 14, 20,
   4, 11, 16, 23, 4, 11, 16, 23, 4, 11, 16, 23, 4, 11, 16, 23,
   6, 10, 15, 21, 6, 10, 15, 21, 6, 10, 15, 21, 6, 10, 15, 21]

/-- Bitwise complement on 32-bit words. -/
def not32 (x : Nat) : Nat := (w32 x) ^^^ 4294967295

/-- One MD5 round applied to the state `(a, b, c, d)`;
`m` is the 16-word message block accessor, `i` the round index. -/
def md5Round (m : Nat → Nat) (st : Nat × Nat × Nat × Nat) (i : Nat) :
    Nat × Nat × Nat × Nat :=
  let (a, b, c, d) := st
  let f :=
    if i < 16 then (b &&& c) ||| ((not32 b) &&& d)
    else if i < 32 then (d &&& b) ||| ((not32 d) &&& c)
    else if i < 48 then b ^^^ c ^^^ d
    else c ^^^ (b ||| (not32 d))
  let g :=
    if i < 16 then i
    else if i < 32 then (5 * i + 1) % 16
    else if i < 48 then (3 * i + 5) % 16
    else (7 * i) % 16
  let f2 := w32 (f + a + md5K.getD i 0 + m g)
  (d, w32 (b + rotl32 f2 (md5S.getD i 0)), b, c)

/-- Read the `j`-th little-endian 32-bit word of a 64-byte chunk. -/
def chunkWord (chunk : List Nat) (j : Nat) : Nat :=
  chunk.getD (4 * j) 0 + chunk.getD (4 * j + 1) 0 * 256 +
    chunk.getD (4 * j + 2) 0 * 65536 + chunk.getD (4 * j + 3) 0 * 16777216

/-- Process one 64-byte chunk, updating the running digest state. -/
def md5Chunk (st : Nat × Nat × Nat × Nat) (chunk : List Nat) :
    Nat × Nat × Nat × Nat :=
  let (a0, b0, c0, d0) := st
  let (a, b, c, d) :=
    (List.range 64).foldl (md5Round (chunkWord chunk)) (a0, b0, c0, d0)
  (w32 (a0 + a), w32 (b0 + b), w32 (c0 + c), w32 (d0 + d))

/-- Split a byte list into 64-byte chunks (structural recursion on a
fuel bound so that the kernel can evaluate it; `fuel = l.length`
suffices since each step consumes at least one byte). -/
def toChunksAux : Nat → List Nat → List (List Nat)
  | 0, _ => []
  | _ + 1, [] => []
  | fuel + 1, l => (l.take 64) :: toChunksAux fuel (l.drop 64)

/-- Split a byte list into 64-byte chunks. -/
def toChunks (l : List Nat) : List (List Nat) := toChunksAux l.length l

/-- The `i`-th little-endian byte of `n` (base-256 digit). -/
def leByte (n i : Nat) : Nat := n / 256 ^ i % 256

/-- MD5 padding: `0x80`, zeros to 56 mod 64, then the 64-bit
little-endian bit length of the original message. -/
def md5Pad (msg : List Nat) : List Nat :=
  let padLen := (55 - msg.length % 64) % 64 + 1
  msg ++ [128] ++ List.replicate (padLen - 1) 0 ++
    (List.range 8).map (leByte (8 * msg.length % 18446744073709551616))

/-- The four 32-bit words of the MD5 digest of a byte list. -/
def md5Words (msg : List Nat) : Nat × Nat × Nat × Nat :=
  (toChunks (md5Pad msg)).foldl md5Chunk
    (1732584193, 4023233417, 2562383102, 271733878)

/-- Little-endian byte decomposition of a 32-bit word. -/
def wordBytes (n : Nat) : List Nat :=
  [n % 256, n / 256 % 256, n / 65536 % 256, n / 16777216 % 256]

/-- The 16 digest bytes of MD5. -/
def md5Bytes (msg : List Nat) : List Nat :=
  let (a, b, c, d) := md5Words msg
  wordBytes a ++ wordBytes b ++ wordBytes c ++ wordBytes d

/-- Lowercase hex digit of `n % 16`. -/
def hexDigit (n : Nat) : Char := Nat.digitChar (n % 16)

/-- Lowercase hex rendering of a byte list, two characters per byte
(Python's `hexdigest()`). -/
def bytesToHex (l : List Nat) : String :=
  String.mk (l.flatMap fun b => [hexDigit (b / 16 % 16), hexDigit (b % 16)])

/-- `hashlib.md5(x).hexdigest()` on a byte string `x`. -/
def md5Hex (msg : List Nat) : String := bytesToHex (md5Bytes msg)

/-- UTF-8 encoding of one character (model of Python `str.encode()`
per code point). -/
def utf8Char (c : Char) : List Nat :=
  let n := c.toNat
  if n < 128 then [n]
  else if n < 2048 then [192 ||| (n >>> 6), 128 ||| (n &&& 63)]
  else if n < 65536 then
    [224 ||| (n >>> 12), 128 ||| ((n >>> 6) &&& 63), 128 ||| (n &&& 63)]
  else
    [240 ||| (n >>> 18), 128 ||| ((n >>> 12) &&& 63),
     128 ||| ((n >>> 6) &&& 63), 128 ||| (n &&& 63)]

/-- UTF-8 encoding of a string (model of Python `str.encode()`). -/
def utf8Encode (s : String) : List Nat := s.data.flatMap utf8Char

/-! ### Cell values and rows (model of the pandas data the program sees)

`pd.read_csv` hands the program cell values that are Python ints, bools,
strings, or the float NaN used as the missing-value marker (an empty or
absent field).  `Value.str` is Python's `str()` on these cells
(`str(nan) = "nan"`, `str(True) = "True"`).  Float cells other than NaN
are outside the model (Python float formatting is not embedded). -/

inductive Value where
  | vInt : Int → Value
  | vBool : Bool → Value
  | vStr : String → Value
  | vNan : Value
deriving DecidableEq, Repr

/-- Python `str()` on a cell value. -/
def Value.str : Value → String
  | .vInt n => toString n
  | .vBool true => "True"
  | .vBool false => "False"
  | .vStr s => s
  | .vNan => "nan"

/-- A pandas `Series` as yielded by `df.iterrows()`: the column index
plus the positional cell values (`row.values`). -/
structure Series where
  index : List String
  values : List Value
deriving DecidableEq, Repr

/-- The local `row_string` of `generate_row_hash`:
`'|'.join(str(value) for value in row.values)`. -/
def rowStringOf (row : Series) : String :=
  String.intercalate "|" (row.values.map Value.str)

/-- `generate_row_hash` (src lines 229–234):
`hashlib.md5(row_string.encode()).hexdigest()`. -/
def generate_row_hash (row : Series) : String :=
  md5Hex (utf8Encode (rowStringOf row))

/-- A pandas `DataFrame` as returned by `pd.read_csv`: column labels
plus the rows of cell values. -/
structure DataFrame where
  columns : List String
  rows : List (List Value)
deriving DecidableEq, Repr

/-! ### pandas `read_csv` cell and dtype model

Models the parts of `pd.read_csv` the program's behaviour depends on,
restricted to the common forms: an empty field is the missing-value
marker NaN; a column is `int64` when every field parses as a base-10
integer (a missing field forces `float64`), `float64` when every
non-missing field parses as a decimal number, `bool` when every field
is the literal `True`/`False`, and `object` otherwise.  A row shorter
than the header is right-padded with NaN. -/

/-- Integer literal: optional sign then at least one digit. -/
def isIntStr (s : String) : Bool :=
  let l := match s.data with
    | c :: rest => if c = '-' ∨ c = '+' then rest else s.data
    | [] => []
  !l.isEmpty && l.all Char.isDigit

/-- Exponent tail of a float literal: optional sign then digits. -/
def isExpTail (l : List Char) : Bool :=
  let t := match l with
    | c :: rest => if c = '-' ∨ c = '+' then rest else l
    | [] => l
  !t.isEmpty && t.all Char.isDigit

/-- Decimal float literal: optional sign, digits with at most one dot
(at least one digit overall), optional exponent. -/
def isFloatChars (l : List Char) : Bool :=
  let l := match l with
    | c :: rest => if c = '-' ∨ c = '+' then rest else l
    | [] => l
  let d1 := l.takeWhile Char.isDigit
  let r1 := l.dropWhile Char.isDigit
  match r1 with
  | [] => !d1.isEmpty
  | '.' :: r2 =>
    let d2 := r2.takeWhile Char.isDigit
    let r3 := r2.dropWhile Char.isDigit
    if d1.isEmpty && d2.isEmpty then false
    else match r3 with
      | [] => true
      | e :: r4 => (e = 'e' || e = 'E') && isExpTail r4
  | e :: r4 => !d1.isEmpty && (e = 'e' || e = 'E') && isExpTail r4

def isFloatStr (s : String) : Bool := isFloatChars s.data

/-- pandas column dtypes relevant to `create_table_from_csv`. -/
inductive Dtype where
  | int64 | float64 | boolDt | object
deriving DecidableEq, Repr

/-- Dtype pandas infers for a column of raw fields (empty field =
missing value). -/
def inferDtype (vals : List String) : Dtype :=
  if vals.isEmpty then .object
  else if vals.all isIntStr then .int64
  else if (vals.filter (fun v => v ≠ "")).all isFloatStr then .float64
  else if vals.all (fun v => v = "True" || v = "False") then .boolDt
  else .object

/-- Cell value pandas yields for one raw field in a column of the given
dtype (restricted to the forms `Value` covers; a non-NaN `float64` cell
is outside the model). -/
def cellValue (dt : Dtype) (field : String) : Value :=
  if field = "" then .vNan
  else match dt with
    | .int64 => .vInt (field.toInt?.getD 0)
    | .boolDt => .vBool (field = "True")
    | _ => .vStr field

/-- Right-pad one raw record to the header length with NaN cells, the
way `pd.read_csv` completes a short row (src spec §3 "Row"); fields are
taken as `object`-column cells. -/
def padFields (n : Nat) (fields : List String) : List Value :=
  fields.map Value.vStr ++ List.replicate (n - fields.length) Value.vNan

/-! ### `create_table_from_csv`: column typing and column list -/

/-- SQL column types produced by `create_table_from_csv`
(src lines 197–208), with the configured defaults
`decimal_precision = "10,2"` and `varchar_length = 255`. -/
inductive ColType where
  | intType
  | decimalType : String → ColType
  | boolType
  | varcharType : Nat → ColType
deriving DecidableEq, Repr

/-- The dtype-to-SQL-type mapping of `create_table_from_csv`:
`int64 → INT`, `float64 → DECIMAL(decimal_precision)`,
`bool → BOOLEAN`, else `VARCHAR(varchar_length)`. -/
def dtypeToColType (decimalPrecision : String) (varcharLength : Nat) :
    Dtype → ColType
  | .int64 => .intType
  | .float64 => .decimalType decimalPrecision
  | .boolDt => .boolType
  | .object => .varcharType varcharLength

/-- End-to-end column typing: pandas dtype of the sampled fields, then
the dtype-to-SQL mapping, at the default configuration
(`decimal_precision "10,2"`, `varchar_length 255`). -/
def inferColType (vals : List String) : ColType :=
  dtypeToColType "10,2" 255 (inferDtype vals)

/-- SQL rendering of a column type. -/
def colTypeSql : ColType → String
  | .intType => "INT"
  | .decimalType p => "DECIMAL(" ++ p ++ ")"
  | .boolType => "BOOLEAN"
  | .varcharType n => "VARCHAR(" ++ toString n ++ ")"

/-- A raw CSV file: the header record and the data records. -/
structure RawCsv where
  headers : List String
  records : List (List String)
deriving DecidableEq, Repr

/-- The fields of column `i` across the data records (missing trailing
fields read as empty). -/
def columnValues (csv : RawCsv) (i : Nat) : List String :=
  csv.records.map (fun r => r.getD i "")

/-- The `(name, type)` pairs behind the `columns` list built by
`create_table_from_csv` (src lines 193–212): one entry per CSV header —
the name is `col` exactly as it appears in `df.columns` — followed by
the system columns `row_hash VARCHAR(64) UNIQUE` and
`created_at TIMESTAMP DEFAULT CURRENT_TIMESTAMP`. -/
def create_table_columns (csv : RawCsv) : List (String × String) :=
  (csv.headers.enum.map fun p =>
    (p.2, colTypeSql (inferColType (columnValues csv p.1)))) ++
    [("row_hash", "VARCHAR(64) UNIQUE"),
     ("created_at", "TIMESTAMP DEFAULT CURRENT_TIMESTAMP")]

/-! ### Store model and the sync engine

The target table is modelled by its observable content for this
program: absent (`none`), or the list of stored rows paired with their
`row_hash` value.  The UNIQUE constraint on `row_hash` together with
`INSERT IGNORE` means an insert lands (rowcount 1) exactly when its
hash is not yet stored, and is silently ignored (rowcount 0) otherwise.
The surrogate `id` and `created_at` columns play no role in the
program's logic and are not tracked.

The resolved source file is an `Option DataFrame`: `none` models
`get_csv_file_to_process` returning `None` (no file could be resolved),
`some df` models a successful read of the resolved file. -/

abbrev Row := List Value

abbrev DBState := Option (List (Row × String))

/-- Python exceptions the embedded entry points can raise. -/
inductive PyErr where
  | fileNotFound
deriving DecidableEq, Repr

/-- MySQL errors surfaced to `get_existing_hashes`. -/
inductive SqlErr where
  | tableDoesntExist
  | otherErr : String → SqlErr
deriving DecidableEq, Repr

/-- The hashes stored in the table (empty for an absent table). -/
def dbHashes (st : DBState) : List String :=
  (st.getD []).map Prod.snd

/-- Number of rows stored in the table. -/
def dbSize (st : DBState) : Nat := (st.getD []).length

/-- `SELECT row_hash FROM table`: fails when the table is absent. -/
def selectHashes (st : DBState) : Except SqlErr (List String) :=
  match st with
  | none => .error .tableDoesntExist
  | some rows => .ok (rows.map Prod.snd)

/-- Whether the error message contains `"doesn't exist"` (the check in
`get_existing_hashes`'s handler). -/
def isDoesntExistErr : SqlErr → Bool
  | .tableDoesntExist => true
  | .otherErr _ => false

/-- `get_existing_hashes` (src lines 236–249): the stored fingerprint
set; a "table doesn't exist" error from the SELECT is caught and
returned as the empty set, any other error is re-raised. -/
def get_existing_hashes (st : DBState) : Except SqlErr (List String) :=
  match selectHashes st with
  | .ok rows => .ok rows
  | .error err => if isDoesntExistErr err then .ok [] else .error err

/-- The store effect of `create_table_from_csv` (src lines 214–222):
`CREATE TABLE IF NOT EXISTS` — a fresh empty table when absent, a
no-op when present. -/
def create_table_from_csv (st : DBState) : DBState :=
  match st with
  | none => some []
  | some rows => some rows

/-- One `INSERT IGNORE` of a row with its hash: ignored with rowcount 0
when the hash is already stored (UNIQUE `row_hash`), inserted with
rowcount 1 otherwise. -/
def insertIgnore (rows : List (Row × String)) (r : Row) (h : String) :
    List (Row × String) × Nat :=
  if h ∈ rows.map Prod.snd then (rows, 0)
  else (rows ++ [(r, h)], 1)

/-- The per-row insert loop shared by `import_csv_initial` and
`append_new_rows`: insert each `(row, hash)` item in order, counting
only inserts whose rowcount is positive. -/
def insertLoop (rows : List (Row × String)) :
    List (Row × String) → List (Row × String) × Nat
  | [] => (rows, 0)
  | (r, h) :: rest =>
    let (rows1, c) := insertIgnore rows r h
    let (rows2, n) := insertLoop rows1 rest
    (rows2, c + n)

/-- Core of `import_csv_initial` (src lines 251–304) once a file is
resolved: create the table if configured (default
`auto_create_table = true`), then hash and `INSERT IGNORE` every row of
the dataframe, returning the new store state and `rows_inserted`. -/
def importRun (st : DBState) (df : DataFrame) : DBState × Nat :=
  let st1 := create_table_from_csv st
  let (rows2, n) :=
    insertLoop (st1.getD [])
      (df.rows.map fun r => (r, generate_row_hash ⟨df.columns, r⟩))
  (some rows2, n)

/-- Core of `append_new_rows` (src lines 310–377) once a file is
resolved: if the table is absent (`SHOW TABLES` finds nothing), fall
back to the full initial import; otherwise load the stored fingerprint
set, keep only rows whose fingerprint is absent from it, and
`INSERT IGNORE` those, returning the new store state and
`rows_inserted`. -/
def appendRun (st : DBState) (df : DataFrame) : DBState × Nat :=
  match st with
  | none => importRun none df
  | some rows =>
    let existing := (get_existing_hashes (some rows)).toOption.getD []
    let newRows :=
      (df.rows.map fun r => (r, generate_row_hash ⟨df.columns, r⟩)).filter
        (fun p => p.2 ∉ existing)
    let (rows2, n) := insertLoop rows newRows
    (some rows2, n)

/-- `import_csv_initial` at its entry: when no CSV file could be
resolved it raises `FileNotFoundError` (src lines 257–259); otherwise
it runs the import. -/
def import_csv_initial (st : DBState) (file : Option DataFrame) :
    Except PyErr (DBState × Nat) :=
  match file with
  | none => .error .fileNotFound
  | some df => .ok (importRun st df)

/-- `append_new_rows` at its entry: when no CSV file could be resolved
it raises `FileNotFoundError` (src lines 316–318); otherwise it runs
the append. -/
def append_new_rows (st : DBState) (file : Option DataFrame) :
    Except PyErr (DBState × Nat) :=
  match file with
  | none => .error .fileNotFound
  | some df => .ok (appendRun st df)

/-! ### Watch loop (`monitor_csv_and_sync`, src lines 408–456)

One polling iteration observes the currently resolved file (path,
modification time, parsed content) or `none`; the loop runs over a
finite trace of such observations, ended by the external interrupt
(`KeyboardInterrupt`), which is caught and logged. -/

structure WatchState where
  lastProcessedFile : Option String
  lastModified : Nat
deriving DecidableEq, Repr

/-- `last_processed_file = None`, `last_modified = 0`. -/
def initialWatchState : WatchState := ⟨none, 0⟩

structure StepResult where
  db : DBState
  watch : WatchState
  invoked : Bool
deriving DecidableEq, Repr

/-- One iteration of the monitoring loop body: if a file is resolved
and it differs from the last processed file or its modification time
has advanced, invoke the sync engine and record the file; otherwise
only sleep. -/
def monitorStep (db : DBState) (w : WatchState)
    (file : Option (String × Nat × DataFrame)) : StepResult :=
  match file with
  | none => ⟨db, w, false⟩
  | some (path, modified, df) =>
    if some path ≠ w.lastProcessedFile ∨ modified > w.lastModified then
      let (db2, _) := appendRun db df
      ⟨db2, ⟨some path, modified⟩, true⟩
    else ⟨db, w, false⟩

/-- Events observed by the watch loop: one filesystem observation per
polling iteration, or the external interrupt signal. -/
inductive WatchEvent where
  | obs : Option (String × Nat × DataFrame) → WatchEvent
  | interrupt
deriving DecidableEq, Repr

inductive WatchExit where
  | interrupted
  | ranOutOfTrace
deriving DecidableEq, Repr

/-- The watch loop over a finite event trace: iterations run one after
another (`while True`), and the interrupt ends the loop cleanly with
the logged `interrupted` outcome. -/
def monitorLoop (db : DBState) (w : WatchState) :
    List WatchEvent → WatchExit
  | [] => .ranOutOfTrace
  | .interrupt :: _ => .interrupted
  | .obs f :: rest =>
    let r := monitorStep db w f
    monitorLoop r.db r.watch rest

/-- The fingerprints of a dataframe's rows, in file order. -/
def hashesOf (df : DataFrame) : List String :=
  df.rows.map fun r => generate_row_hash ⟨df.columns, r⟩

/-- Store states reachable by any sequence of `import_csv_initial` and
`append_new_rows` runs, starting from the table as first created by
`create_table_from_csv`. -/
inductive Reachable : DBState → Prop where
  | created : Reachable (create_table_from_csv none)
  | importStep : ∀ (st : DBState) (df : DataFrame),
      Reachable st → Reachable (importRun st df).1
  | appendStep : ∀ (st : DBState) (df : DataFrame),
      Reachable st → Reachable (appendRun st df).1

/-! ### Spec-side definitions

The following definitions follow the wording of the specification (not
the source); they exist only to be compared with the code-side
definitions above. -/

/-- Column types of the specification's Type Inferencer (§3, §4.1). -/
inductive SpecColType where
  | integer
  | decimal
  | date
  | dateTime
  | text : Nat → SpecColType
deriving DecidableEq, Repr

/-- Split a character list on a separator character. -/
def splitChar (sep : Char) : List Char → List (List Char)
  | [] => [[]]
  | c :: rest =>
    let r := splitChar sep rest
    if c = sep then [] :: r
    else
      match r with
      | [] => [[c]]
      | g :: gs => (c :: g) :: gs

/-- Run of exactly `n` digits, used by the spec's date patterns. -/
def digitsRun (l : List Char) (n : Nat) : Bool :=
  l.length = n && l.all Char.isDigit

/-- Spec date-only pattern `YYYY-MM-DD`. -/
def matchesDatePattern (s : String) : Bool :=
  match splitChar '-' s.data with
  | [y, m, d] => digitsRun y 4 && digitsRun m 2 && digitsRun d 2
  | _ => false

/-- Spec datetime pattern `YYYY-MM-DD HH:MM:SS`. -/
def matchesDateTimePattern (s : String) : Bool :=
  match splitChar ' ' s.data with
  | [d, t] =>
    (match splitChar '-' d with
     | [y, m, dd] => digitsRun y 4 && digitsRun m 2 && digitsRun dd 2
     | _ => false) &&
      (match splitChar ':' t with
       | [h, mi, se] => digitsRun h 2 && digitsRun mi 2 && digitsRun se 2
       | _ => false)
  | _ => false

/-- Spec-modelled Type Inferencer (spec §4.1), following the spec's
words: over the non-empty sample values, Integer if all parse as
base-10 integers, else Decimal if all parse as floats, else Date or
DateTime if all match the same pattern from the fixed ordered pattern
list (date-only before datetime), else Text with length
`clamp(max(observedMaxLength, lowerBound), lowerBound, upperBound)`
at the spec's example bounds 50–500. -/
def inferSpec (vals : List String) : SpecColType :=
  let ne := vals.filter (fun v => v ≠ "")
  if ne.isEmpty then .text 50
  else if ne.all isIntStr then .integer
  else if ne.all isFloatStr then .decimal
  else if ne.all matchesDatePattern then .date
  else if ne.all matchesDateTimePattern then .dateTime
  else
    let omax := (ne.map String.length).foldr max 0
    .text (min (max omax 50) 500)

/-- Spec-modelled header sanitization (spec §3 "ColumnSpec"): replace
whitespace and hyphens with underscores, then strip every character
that is not alphanumeric or underscore. -/
def sanitizeHeader (s : String) : String :=
  String.mk
    (((s.data.map fun c =>
        if c = ' ' ∨ c = '\t' ∨ c = '-' then '_' else c).filter
      fun c => c.isAlphanum ∨ c = '_'))

/-! ### Helper lemmas about the insert loop -/

lemma card_insert_sdiff (h : String) (T S : Finset String) (hS : h ∉ S) :
    ((insert h T) \ S).card = (T \ (S ∪ {h})).card + 1 := by
  have h1 : (insert h T) \ S = insert h (T \ S) := by
    ext x
    simp only [Finset.mem_sdiff, Finset.mem_insert]
    constructor
    · rintro ⟨hx | hx, hxs⟩
      · exact Or.inl hx
      · exact Or.inr ⟨hx, hxs⟩
    · rintro (rfl | ⟨hx, hxs⟩)
      · exact ⟨Or.inl rfl, hS⟩
      · exact ⟨Or.inr hx, hxs⟩
  have h2 : T \ (S ∪ {h}) = (T \ S).erase h := by
    ext x
    simp only [Finset.mem_sdiff, Finset.mem_union, Finset.mem_singleton,
      Finset.mem_erase]
    tauto
  rw [h1, h2]
  by_cases hT : h ∈ T \ S
  · rw [Finset.insert_eq_self.mpr hT, Finset.card_erase_add_one hT]
  · rw [Finset.card_insert_of_not_mem hT, Finset.erase_eq_of_not_mem hT]

lemma sdiff_of_mem_left (h : String) (T S : Finset String) (hS : h ∈ S) :
    (insert h T) \ S = T \ S := by
  ext x
  simp only [Finset.mem_sdiff, Finset.mem_insert]
  constructor
  · rintro ⟨rfl | hx, hxs⟩
    · exact absurd hS hxs
    · exact ⟨hx, hxs⟩
  · rintro ⟨hx, hxs⟩
    exact ⟨Or.inr hx, hxs⟩

/-- The insert loop grows the table by exactly the reported count. -/
lemma insertLoop_size (items rows : List (Row × String)) :
    (insertLoop rows items).1.length = rows.length + (insertLoop rows items).2 := by
  induction items generalizing rows with
  | nil => simp [insertLoop]
  | cons p rest ih =>
    obtain ⟨r, h⟩ := p
    by_cases hmem : h ∈ rows.map Prod.snd
    · simp only [insertLoop, insertIgnore, if_pos hmem]
      simpa using ih rows
    · simp only [insertLoop, insertIgnore, if_neg hmem]
      have := ih (rows ++ [(r, h)])
      simp only [List.length_append, List.length_singleton] at this
      simp [this]
      omega

/-- The hash set after the insert loop is the union of the stored and
the submitted hashes. -/
lemma insertLoop_hashes (items rows : List (Row × String)) :
    ((insertLoop rows items).1.map Prod.snd).toFinset =
      (rows.map Prod.snd).toFinset ∪ (items.map Prod.snd).toFinset := by
  induction items generalizing rows with
  | nil => simp [insertLoop]
  | cons p rest ih =>
    obtain ⟨r, h⟩ := p
    by_cases hmem : h ∈ rows.map Prod.snd
    · simp only [insertLoop, insertIgnore, if_pos hmem]
      rw [ih rows]
      ext x
      simp only [Finset.mem_union, List.mem_toFinset, List.map_cons,
        List.mem_cons]
      constructor
      · rintro (hx | hx)
        · exact Or.inl hx
        · exact Or.inr (Or.inr hx)
      · rintro (hx | rfl | hx)
        · exact Or.inl hx
        · exact Or.inl hmem
        · exact Or.inr hx
    · simp only [insertLoop, insertIgnore, if_neg hmem]
      rw [ih (rows ++ [(r, h)])]
      ext x
      simp only [Finset.mem_union, List.mem_toFinset, List.map_append,
        List.map_cons, List.mem_append, List.mem_cons, List.map_nil,
        List.mem_singleton, List.not_mem_nil, or_false]
      tauto

/-- The count reported by the insert loop is the number of distinct
submitted hashes not already stored. -/
lemma insertLoop_count (items rows : List (Row × String)) :
    (insertLoop rows items).2 =
      ((items.map Prod.snd).toFinset \ (rows.map Prod.snd).toFinset).card := by
  induction items generalizing rows with
  | nil => simp [insertLoop]
  | cons p rest ih =>
    obtain ⟨r, h⟩ := p
    by_cases hmem : h ∈ rows.map Prod.snd
    · simp only [insertLoop, insertIgnore, if_pos hmem]
      rw [List.map_cons, List.toFinset_cons,
        sdiff_of_mem_left h _ _ (List.mem_toFinset.mpr hmem)]
      simpa using ih rows
    · simp only [insertLoop, insertIgnore, if_neg hmem]
      have hins : ((rows ++ [(r, h)]).map Prod.snd).toFinset =
          (rows.map Prod.snd).toFinset ∪ {h} := by
        ext x
        simp only [List.map_append, List.toFinset_append, Finset.mem_union,
          List.mem_toFinset, List.map_cons, List.map_nil, List.toFinset_cons,
          List.toFinset_nil, Finset.mem_insert, Finset.mem_singleton,
          Finset.not_mem_empty, or_false]
      have := ih (rows ++ [(r, h)])
      rw [hins] at this
      rw [List.map_cons, List.toFinset_cons,
        card_insert_sdiff h _ _ (by simpa using hmem)]
      simp only [this]
      omega

/-- The insert loop preserves distinctness of the stored hashes. -/
lemma insertLoop_nodup (items rows : List (Row × String))
    (hnd : (rows.map Prod.snd).Nodup) :
    ((insertLoop rows items).1.map Prod.snd).Nodup := by
  induction items generalizing rows with
  | nil => simpa [insertLoop]
  | cons p rest ih =>
    obtain ⟨r, h⟩ := p
    by_cases hmem : h ∈ rows.map Prod.snd
    · simp only [insertLoop, insertIgnore, if_pos hmem]
      exact ih rows hnd
    · simp only [insertLoop, insertIgnore, if_neg hmem]
      refine ih (rows ++ [(r, h)]) ?_
      simp only [List.map_append, List.map_cons, List.map_nil]
      exact List.Nodup.append hnd (List.nodup_singleton h)
        (by simpa using hmem)

/-! ### Digest length facts -/

lemma bytesToHex_length (l : List Nat) : (bytesToHex l).length = 2 * l.length := by
  have : ∀ m : List Nat,
      (m.flatMap fun b => [hexDigit (b / 16 % 16), hexDigit (b % 16)]).length =
        2 * m.length := by
    intro m
    induction m with
    | nil => simp
    | cons b rest ih => simp [ih]; ring
  simpa [bytesToHex, String.length] using this l

lemma md5Bytes_length (msg : List Nat) : (md5Bytes msg).length = 16 := by
  rcases hw : md5Words msg with ⟨a, b, c, d⟩
  simp [md5Bytes, hw, wordBytes]

lemma md5Hex_length (msg : List Nat) : (md5Hex msg).length = 32 := by
  simp [md5Hex, bytesToHex_length, md5Bytes_length]

/-! ### Claim theorems -/

/-- C2: the row fingerprint is deterministic — a pure function of the
row's values coerced to string and pipe-joined — so two rows with
identical value sequences after string coercion get identical
fingerprints regardless of their column names or when they are read;
and the digest has the fixed length of 32 hex characters, i.e. exactly
128 bits. -/
theorem C2_fingerprint_deterministic_positional :
    (∀ r1 r2 : Series,
        r1.values.map Value.str = r2.values.map Value.str →
        generate_row_hash r1 = generate_row_hash r2) ∧
    (∀ r : Series, (generate_row_hash r).length = 32) := by
  constructor
  · intro r1 r2 hval
    simp only [generate_row_hash, rowStringOf, hval]
  · intro r
    simp [generate_row_hash, md5Hex_length]

/-- Witness for C2: two concrete rows with different column names but
identical value sequences share the fingerprint, which is 32 hex
characters long. -/
theorem C2_witness :
    generate_row_hash ⟨["colA", "colB"], [Value.vStr "x", Value.vInt 3]⟩ =
        generate_row_hash ⟨["other"], [Value.vStr "x", Value.vInt 3]⟩ ∧
      (generate_row_hash
        ⟨["colA", "colB"], [Value.vStr "x", Value.vInt 3]⟩).length = 32 :=
  ⟨C2_fingerprint_deterministic_positional.1 _ _ rfl,
   C2_fingerprint_deterministic_positional.2 _⟩

/-- C6 counterexample: with no resolvable source CSV file,
`append_new_rows` raises `FileNotFoundError` — it does not return a
zero-row no-op result. -/
theorem C6_counterexample :
    append_new_rows none none = .error .fileNotFound ∧
      append_new_rows none none ≠ .ok (none, 0) := by
  exact ⟨rfl, fun h => Except.noConfusion h⟩

/-- C6 amended: when no source CSV file can be resolved, both
`append_new_rows` and `import_csv_initial` abort by raising
`FileNotFoundError` (logged and propagated) instead of returning a
zero-row result. -/
theorem C6_absent_file_raises (st : DBState) :
    append_new_rows st none = .error .fileNotFound ∧
      import_csv_initial st none = .error .fileNotFound :=
  ⟨rfl, rfl⟩

lemma map_str_vStr (l : List String) : l.map (Value.str ∘ Value.vStr) = l := by
  induction l with
  | nil => rfl
  | cons a t ih => simp [ih, Function.comp_def, Value.str]

/-- C7 counterexample: a one-field row against a two-column header is
padded with the missing-value marker, whose string coercion is
`"nan"` — the pipe-joined fingerprint input is `"a|nan"`, not the
`"a|"` an empty-string padding would give. -/
theorem C7_counterexample :
    rowStringOf ⟨["h1", "h2"], padFields 2 ["a"]⟩ = "a|nan" ∧
      rowStringOf ⟨["h1", "h2"], padFields 2 ["a"]⟩ ≠ "a|" := by
  constructor <;> decide

/-- C7 amended: a row shorter than the header length is right-padded
with NaN cells, so fingerprinting proceeds with no index-out-of-range
failure, and each padded field contributes the string `"nan"` (not the
empty string) to the pipe-joined fingerprint input. -/
theorem C7_short_row_padding (n : Nat) (fields cols : List String) :
    ((padFields n fields).map Value.str =
        fields ++ List.replicate (n - fields.length) "nan") ∧
      ((padFields n fields).length = max n fields.length) ∧
      rowStringOf ⟨cols, padFields n fields⟩ =
        String.intercalate "|"
          (fields ++ List.replicate (n - fields.length) "nan") := by
  refine ⟨?_, ?_, ?_⟩
  · simp [padFields, Value.str, List.map_replicate, map_str_vStr]
  · simp [padFields]
    omega
  · simp [rowStringOf, padFields, Value.str, List.map_replicate, map_str_vStr]

/-- C8 counterexample: the header `"a-b c"` is used verbatim as the
created column's name, while the specified sanitization would have
produced `"a_b_c"`. -/
theorem C8_counterexample :
    (create_table_columns ⟨["a-b c"], [["x"]]⟩).map Prod.fst =
        ["a-b c", "row_hash", "created_at"] ∧
      sanitizeHeader "a-b c" = "a_b_c" ∧
      ("a-b c" : String) ≠ "a_b_c" := by
  refine ⟨?_, ?_, ?_⟩ <;> decide

/-- C8 amended: `create_table_from_csv` performs no header
sanitization — the created table's column names are exactly the raw
CSV headers, followed by the system columns `row_hash` and
`created_at`. -/
theorem C8_raw_headers_used (csv : RawCsv) :
    (create_table_columns csv).map Prod.fst =
      csv.headers ++ ["row_hash", "created_at"] := by
  simp [create_table_columns, List.map_map, Function.comp_def,
    List.enum_map_snd]

/-- C3 counterexample: a column whose every value matches the spec's
date-only pattern — the specified precedence infers Date, but the code
infers `VARCHAR(255)` (pandas `object` dtype); no date/time step and no
observed-length clamp exist in the code. -/
theorem C3_counterexample :
    inferSpec ["2024-01-01", "2024-01-02"] = SpecColType.date ∧
      inferColType ["2024-01-01", "2024-01-02"] = ColType.varcharType 255 ∧
      (["2024-01-01", "2024-01-02"].map String.length).foldr max 0 = 10 := by
  refine ⟨?_, ?_, ?_⟩ <;> decide

/-- C3 amended: the inferred storage type follows the dtype precedence
actually implemented — Integer when every field parses as a base-10
integer (an empty field forces the float branch), else Decimal("10,2")
when every non-empty field parses as a floating-point number, else
Boolean when every field is the literal `True`/`False`, else
`VARCHAR(255)` with the fixed configured length; no date/time patterns
and no observed-max-length clamp are consulted. -/
theorem C3_type_inference_precedence (vals : List String) :
    (vals ≠ [] → (∀ v ∈ vals, isIntStr v) →
      inferColType vals = ColType.intType) ∧
    (vals ≠ [] → ¬(∀ v ∈ vals, isIntStr v) →
      (∀ v ∈ vals, v ≠ "" → isFloatStr v) →
      inferColType vals = ColType.decimalType "10,2") ∧
    (vals ≠ [] → ¬(∀ v ∈ vals, isIntStr v) →
      ¬(∀ v ∈ vals, v ≠ "" → isFloatStr v) →
      (∀ v ∈ vals, v = "True" ∨ v = "False") →
      inferColType vals = ColType.boolType) ∧
    (vals ≠ [] → ¬(∀ v ∈ vals, isIntStr v) →
      ¬(∀ v ∈ vals, v ≠ "" → isFloatStr v) →
      ¬(∀ v ∈ vals, v = "True" ∨ v = "False") →
      inferColType vals = ColType.varcharType 255) := by
  have hne : vals ≠ [] → vals.isEmpty = false := by
    intro h
    simpa [List.isEmpty_iff] using h
  have hint : (∀ v ∈ vals, isIntStr v) ↔ vals.all isIntStr = true := by
    simp only [List.all_eq_true]
  have hfloat : (∀ v ∈ vals, v ≠ "" → isFloatStr v) ↔
      (vals.filter (fun v => v ≠ "")).all isFloatStr = true := by
    simp only [List.all_eq_true, List.mem_filter, decide_eq_true_eq]
    tauto
  have hbool : (∀ v ∈ vals, v = "True" ∨ v = "False") ↔
      vals.all (fun v => v = "True" || v = "False") = true := by
    simp only [List.all_eq_true, Bool.or_eq_true, decide_eq_true_eq]
  have hIntF : ¬(∀ v ∈ vals, isIntStr v) → vals.all isIntStr = false := by
    intro h1
    cases h : vals.all isIntStr
    · rfl
    · exact absurd (hint.mpr h) h1
  have hFloatF : ¬(∀ v ∈ vals, v ≠ "" → isFloatStr v) →
      (vals.filter (fun v => v ≠ "")).all isFloatStr = false := by
    intro h2
    cases h : (vals.filter (fun v => v ≠ "")).all isFloatStr
    · rfl
    · exact absurd (hfloat.mpr h) h2
  have hBoolF : ¬(∀ v ∈ vals, v = "True" ∨ v = "False") →
      vals.all (fun v => v = "True" || v = "False") = false := by
    intro h3
    cases h : vals.all (fun v => v = "True" || v = "False")
    · rfl
    · exact absurd (hbool.mpr h) h3
  refine ⟨?_, ?_, ?_, ?_⟩
  · intro h0 h1
    simp only [inferColType, inferDtype, hne h0, hint.mp h1]
    rfl
  · intro h0 h1 h2
    simp only [inferColType, inferDtype, hne h0, hIntF h1, hfloat.mp h2]
    rfl
  · intro h0 h1 h2 h3
    simp only [inferColType, inferDtype, hne h0, hIntF h1, hFloatF h2,
      hbool.mp h3]
    rfl
  · intro h0 h1 h2 h3
    simp only [inferColType, inferDtype, hne h0, hIntF h1, hFloatF h2,
      hBoolF h3]
    rfl

/-- Witness for C3: each branch of the implemented precedence at a
concrete sample — all-integer, integer-failing-but-float (an empty
field counts as missing), boolean literals, and the textual fallback. -/
theorem C3_witness :
    inferColType ["1", "2"] = ColType.intType ∧
      inferColType ["1", "2.5", ""] = ColType.decimalType "10,2" ∧
      inferColType ["True", "False"] = ColType.boolType ∧
      inferColType ["2024-01-01"] = ColType.varcharType 255 :=
  ⟨(C3_type_inference_precedence ["1", "2"]).1 (by decide) (by decide),
   (C3_type_inference_precedence ["1", "2.5", ""]).2.1 (by decide)
     (by decide) (by decide),
   (C3_type_inference_precedence ["True", "False"]).2.2.1 (by decide)
     (by decide) (by decide) (by decide),
   (C3_type_inference_precedence ["2024-01-01"]).2.2.2 (by decide)
     (by decide) (by decide) (by decide)⟩

/-! ### Sync-engine lemmas -/

lemma create_getD (st : DBState) :
    (create_table_from_csv st).getD [] = st.getD [] := by
  cases st <;> rfl

lemma importRun_eq (st : DBState) (df : DataFrame) :
    importRun st df =
      (some (insertLoop (st.getD [])
          (df.rows.map fun r => (r, generate_row_hash ⟨df.columns, r⟩))).1,
        (insertLoop (st.getD [])
          (df.rows.map fun r => (r, generate_row_hash ⟨df.columns, r⟩))).2) := by
  simp only [importRun, create_getD]

lemma items_map_snd (df : DataFrame) :
    ((df.rows.map fun r => (r, generate_row_hash ⟨df.columns, r⟩)).map
      Prod.snd) = hashesOf df := by
  simp [hashesOf, List.map_map, Function.comp_def]

lemma items_map_snd' (cols : List String) (rows : List Row) :
    ((rows.map fun r => (r, generate_row_hash ⟨cols, r⟩)).map Prod.snd) =
      rows.map fun r => generate_row_hash ⟨cols, r⟩ := by
  simp [List.map_map, Function.comp_def]

lemma importRun_count (st : DBState) (df : DataFrame) :
    (importRun st df).2 =
      ((hashesOf df).toFinset \ (dbHashes st).toFinset).card := by
  rw [importRun_eq, insertLoop_count, items_map_snd]
  rfl

lemma importRun_hashes (st : DBState) (df : DataFrame) :
    (dbHashes (importRun st df).1).toFinset =
      (dbHashes st).toFinset ∪ (hashesOf df).toFinset := by
  rw [importRun_eq]
  show ((insertLoop _ _).1.map Prod.snd).toFinset = _
  rw [insertLoop_hashes, items_map_snd]
  rfl

lemma appendRun_some_filter (rows : List (Row × String)) (df : DataFrame) :
    appendRun (some rows) df =
      (some (insertLoop rows
          ((df.rows.map fun r => (r, generate_row_hash ⟨df.columns, r⟩)).filter
            (fun p => p.2 ∉ rows.map Prod.snd))).1,
        (insertLoop rows
          ((df.rows.map fun r => (r, generate_row_hash ⟨df.columns, r⟩)).filter
            (fun p => p.2 ∉ rows.map Prod.snd))).2) :=
  rfl

lemma filtered_sdiff (rows : List (Row × String)) (df : DataFrame) :
    ((((df.rows.map fun r => (r, generate_row_hash ⟨df.columns, r⟩)).filter
        (fun p => p.2 ∉ rows.map Prod.snd)).map Prod.snd).toFinset \
      (rows.map Prod.snd).toFinset) =
    ((hashesOf df).toFinset \ (rows.map Prod.snd).toFinset) := by
  ext x
  simp only [Finset.mem_sdiff, List.mem_toFinset, List.mem_map,
    List.mem_filter, hashesOf, decide_not, Bool.not_eq_eq_eq_not,
    Bool.not_true, decide_eq_false_iff_not]
  constructor
  · rintro ⟨⟨p, ⟨⟨r, hr, rfl⟩, hnm⟩, rfl⟩, hx⟩
    exact ⟨⟨r, hr, rfl⟩, hx⟩
  · rintro ⟨⟨r, hr, rfl⟩, hx⟩
    exact ⟨⟨(r, generate_row_hash ⟨df.columns, r⟩),
      ⟨⟨r, hr, rfl⟩, hx⟩, rfl⟩, hx⟩

lemma appendRun_count (st : DBState) (df : DataFrame) :
    (appendRun st df).2 =
      ((hashesOf df).toFinset \ (dbHashes st).toFinset).card := by
  cases st with
  | none => exact importRun_count none df
  | some rows =>
    rw [appendRun_some_filter, insertLoop_count, filtered_sdiff]
    rfl

lemma appendRun_hashes (st : DBState) (df : DataFrame) :
    (dbHashes (appendRun st df).1).toFinset =
      (dbHashes st).toFinset ∪ (hashesOf df).toFinset := by
  cases st with
  | none => exact importRun_hashes none df
  | some rows =>
    rw [appendRun_some_filter]
    show ((insertLoop _ _).1.map Prod.snd).toFinset = _
    rw [insertLoop_hashes]
    ext x
    have := filtered_sdiff rows df
    simp only [Finset.ext_iff, Finset.mem_sdiff, List.mem_toFinset] at this
    have hx := this x
    simp only [Finset.mem_union, List.mem_toFinset]
    constructor
    · rintro (h | h)
      · exact Or.inl h
      · by_cases hm : x ∈ rows.map Prod.snd
        · exact Or.inl hm
        · exact Or.inr (hx.mp ⟨h, hm⟩).1
    · rintro (h | h)
      · exact Or.inl h
      · by_cases hm : x ∈ rows.map Prod.snd
        · exact Or.inl hm
        · exact Or.inr (hx.mpr ⟨h, hm⟩).1

/-- A sync against a table that already stores every fingerprint of the
file changes nothing and reports zero. -/
lemma appendRun_stable (rows : List (Row × String)) (df : DataFrame)
    (hall : ∀ h ∈ hashesOf df, h ∈ rows.map Prod.snd) :
    appendRun (some rows) df = (some rows, 0) := by
  rw [appendRun_some_filter]
  have hfil : ((df.rows.map fun r => (r, generate_row_hash ⟨df.columns, r⟩)).filter
      (fun p => p.2 ∉ rows.map Prod.snd)) = [] := by
    rw [List.filter_eq_nil_iff]
    intro p hp
    obtain ⟨r0, hr0, rfl⟩ := List.mem_map.mp hp
    simp only [decide_eq_true_eq, not_not]
    exact hall _ (List.mem_map_of_mem _ hr0)
  rw [hfil]
  rfl

lemma importRun_size (st : DBState) (df : DataFrame) :
    dbSize (importRun st df).1 = dbSize st + (importRun st df).2 := by
  rw [importRun_eq]
  exact insertLoop_size _ _

lemma appendRun_size (st : DBState) (df : DataFrame) :
    dbSize (appendRun st df).1 = dbSize st + (appendRun st df).2 := by
  cases st with
  | none => exact importRun_size none df
  | some rows =>
    rw [appendRun_some_filter]
    exact insertLoop_size _ _

lemma importRun_nodup (st : DBState) (df : DataFrame)
    (h : (dbHashes st).Nodup) : (dbHashes (importRun st df).1).Nodup := by
  rw [importRun_eq]
  exact insertLoop_nodup _ _ h

lemma appendRun_nodup (st : DBState) (df : DataFrame)
    (h : (dbHashes st).Nodup) : (dbHashes (appendRun st df).1).Nodup := by
  cases st with
  | none => exact importRun_nodup none df h
  | some rows =>
    rw [appendRun_some_filter]
    exact insertLoop_nodup _ _ h

/-- C1 counterexample: a two-row file whose rows are identical — the
first sync against the absent table inserts 1 row, not one row per CSV
data row (2): the second identical row is absorbed by the unique
fingerprint constraint. -/
theorem C1_counterexample :
    (appendRun none ⟨["c"], [[Value.vStr "a"], [Value.vStr "a"]]⟩).2 = 1 ∧
      ([[Value.vStr "a"], [Value.vStr "a"]] : List (List Value)).length = 2 ∧
      (1 : Nat) ≠ 2 := by
  refine ⟨?_, rfl, by decide⟩
  show (importRun none ⟨["c"], [[Value.vStr "a"], [Value.vStr "a"]]⟩).2 = 1
  rw [importRun_eq]
  simp only [Option.getD_none, List.map_cons, List.map_nil]
  generalize generate_row_hash ⟨["c"], [Value.vStr "a"]⟩ = h
  simp only [insertLoop, insertIgnore]
  simp only [List.map_nil, List.not_mem_nil, if_false, List.map_cons,
    List.mem_singleton, List.mem_cons]
  simp

/-- C1 amended: for every source file, the first sync against an
absent table inserts one row per distinct row fingerprint (duplicate
rows within the file collapse onto one stored row); a second sync of
the unchanged file inserts exactly zero rows and leaves the store
unchanged; and after k rows are appended to the file, a third sync
inserts exactly the appended rows' distinct fingerprints that were not
already present — which is k when the appended rows are pairwise
distinct and fresh. -/
theorem C1_sync_idempotence (cols : List String) (rows ap : List (List Value)) :
    (appendRun none ⟨cols, rows⟩).2 =
        (hashesOf ⟨cols, rows⟩).toFinset.card ∧
      appendRun (appendRun none ⟨cols, rows⟩).1 ⟨cols, rows⟩ =
        ((appendRun none ⟨cols, rows⟩).1, 0) ∧
      (appendRun (appendRun none ⟨cols, rows⟩).1 ⟨cols, rows ++ ap⟩).2 =
        ((hashesOf ⟨cols, ap⟩).toFinset \
          (hashesOf ⟨cols, rows⟩).toFinset).card := by
  have h1 : (appendRun none ⟨cols, rows⟩).1 =
      some (insertLoop []
        (rows.map fun r => (r, generate_row_hash ⟨cols, r⟩))).1 := by
    show (importRun none _).1 = _
    rw [importRun_eq]
    rfl
  have hh : ((insertLoop []
      (rows.map fun r => (r, generate_row_hash ⟨cols, r⟩))).1.map
        Prod.snd).toFinset = (hashesOf ⟨cols, rows⟩).toFinset := by
    rw [insertLoop_hashes, items_map_snd']
    simp [hashesOf]
  refine ⟨?_, ?_, ?_⟩
  · rw [appendRun_count]
    simp [dbHashes]
  · rw [h1]
    apply appendRun_stable
    intro h hm
    have : h ∈ (hashesOf ⟨cols, rows⟩).toFinset := List.mem_toFinset.mpr hm
    rw [← hh] at this
    exact List.mem_toFinset.mp this
  · rw [h1, appendRun_count]
    have hsplit : hashesOf ⟨cols, rows ++ ap⟩ =
        hashesOf ⟨cols, rows⟩ ++ hashesOf ⟨cols, ap⟩ := by
      simp [hashesOf]
    have hdb : (dbHashes (some (insertLoop []
        (rows.map fun r => (r, generate_row_hash ⟨cols, r⟩))).1)).toFinset =
        (hashesOf ⟨cols, rows⟩).toFinset := hh
    rw [hsplit, hdb, List.toFinset_append]
    congr 1
    ext x
    simp only [Finset.mem_sdiff, Finset.mem_union]
    tauto

/-- C4: every sync invocation returns exactly the number of rows it
actually added to the store (for both the append path and the
initial-import path), and an insert absorbed by the duplicate-key ignore path
returns rowcount 0 and leaves the store unchanged, so it is not
counted — even when the fingerprint was committed after the in-memory
fingerprint set was loaded. -/
theorem C4_insert_count_accuracy :
    (∀ (st : DBState) (df : DataFrame),
        dbSize (appendRun st df).1 = dbSize st + (appendRun st df).2) ∧
      (∀ (st : DBState) (df : DataFrame),
        dbSize (importRun st df).1 = dbSize st + (importRun st df).2) ∧
      (∀ (rows : List (Row × String)) (r : Row) (h : String),
        h ∈ rows.map Prod.snd → insertIgnore rows r h = (rows, 0)) := by
  refine ⟨appendRun_size, importRun_size, ?_⟩
  intro rows r h hm
  simp [insertIgnore, hm]

/-- Witness for C4: a duplicate-key insert against a store already
holding the fingerprint is ignored with rowcount 0. -/
theorem C4_witness :
    insertIgnore [([Value.vStr "x"], "h0")] [Value.vStr "y"] "h0" =
      ([([Value.vStr "x"], "h0")], 0) :=
  C4_insert_count_accuracy.2.2 _ _ _ (by decide)

/-- C5: when the target table does not exist, querying the stored
fingerprint set returns the empty set rather than an error, the sync
takes the full initial-import path, no error is raised, and every row
of the source file ends up with its fingerprint present in the
table. -/
theorem C5_absent_table_empty_hashes :
    (get_existing_hashes none = .ok []) ∧
      (∀ df : DataFrame,
        append_new_rows none (some df) = import_csv_initial none (some df)) ∧
      (∀ df : DataFrame,
        append_new_rows none (some df) = .ok (appendRun none df)) ∧
      (∀ (df : DataFrame) (r : Row), r ∈ df.rows →
        generate_row_hash ⟨df.columns, r⟩ ∈ dbHashes (appendRun none df).1) := by
  refine ⟨rfl, fun df => rfl, fun df => rfl, ?_⟩
  intro df r hr
  have hmem : generate_row_hash ⟨df.columns, r⟩ ∈ hashesOf df :=
    List.mem_map_of_mem _ hr
  have : generate_row_hash ⟨df.columns, r⟩ ∈
      (dbHashes (appendRun none df).1).toFinset := by
    rw [appendRun_hashes]
    exact Finset.mem_union_right _ (List.mem_toFinset.mpr hmem)
  exact List.mem_toFinset.mp this

/-- Witness for C5: syncing a concrete one-row file against the absent
table stores that row's fingerprint. -/
theorem C5_witness :
    generate_row_hash ⟨["c"], [Value.vStr "a"]⟩ ∈
      dbHashes (appendRun none ⟨["c"], [[Value.vStr "a"]]⟩).1 :=
  C5_absent_table_empty_hashes.2.2.2 ⟨["c"], [[Value.vStr "a"]]⟩
    [Value.vStr "a"] (by decide)

/-- C10: in every store state reachable by any sequence of
`import_csv_initial` and `append_new_rows` runs from the table as
first created, the stored `row_hash` values are pairwise distinct:
every insert goes through the ignore-on-duplicate path against the
unique fingerprint column, so a committed duplicate fingerprint is
impossible even when the in-memory fingerprint set is stale. -/
theorem C10_fingerprint_uniqueness :
    ∀ st : DBState, Reachable st → (dbHashes st).Nodup := by
  intro st h
  induction h with
  | created => exact List.nodup_nil
  | importStep st df hr ih => exact importRun_nodup st df ih
  | appendStep st df hr ih => exact appendRun_nodup st df ih

/-- Witness for C10: the freshly created table is reachable and its
fingerprint column is duplicate-free. -/
theorem C10_witness : (dbHashes (create_table_from_csv none)).Nodup :=
  C10_fingerprint_uniqueness _ Reachable.created

/-- C9: on every polling iteration the sync engine is invoked exactly
when a source file is resolved and it either differs from the last
processed file or its modification timestamp has advanced; an
iteration that does not invoke the sync changes nothing (it only
sleeps); and the loop keeps iterating through any number of
observations until the external interrupt, which ends it with the
logged interrupted outcome. -/
theorem C9_watch_loop_trigger :
    (∀ (db : DBState) (w : WatchState)
        (f : Option (String × Nat × DataFrame)),
      (monitorStep db w f).invoked = true ↔
        ∃ path modified df, f = some (path, modified, df) ∧
          (some path ≠ w.lastProcessedFile ∨ modified > w.lastModified)) ∧
    (∀ (db : DBState) (w : WatchState)
        (f : Option (String × Nat × DataFrame)),
      (monitorStep db w f).invoked = false →
        monitorStep db w f = ⟨db, w, false⟩) ∧
    (∀ (db : DBState) (w : WatchState)
        (obsList : List (Option (String × Nat × DataFrame))),
      monitorLoop db w (obsList.map WatchEvent.obs ++ [WatchEvent.interrupt]) =
        WatchExit.interrupted) := by
  refine ⟨?_, ?_, ?_⟩
  · intro db w f
    cases f with
    | none => simp [monitorStep]
    | some t =>
      obtain ⟨p, m, df⟩ := t
      by_cases hc : some p ≠ w.lastProcessedFile ∨ m > w.lastModified
      · rcases ha : appendRun db df with ⟨db2, n⟩
        simp only [monitorStep, if_pos hc, ha, true_iff]
        exact ⟨p, m, df, rfl, hc⟩
      · simp only [monitorStep, if_neg hc, Bool.false_eq_true, false_iff]
        rintro ⟨p2, m2, df2, heq, hc2⟩
        simp only [Option.some.injEq, Prod.mk.injEq] at heq
        obtain ⟨rfl, rfl, rfl⟩ := heq
        exact hc hc2
  · intro db w f
    cases f with
    | none => intro _; rfl
    | some t =>
      obtain ⟨p, m, df⟩ := t
      by_cases hc : some p ≠ w.lastProcessedFile ∨ m > w.lastModified
      · rcases ha : appendRun db df with ⟨db2, n⟩
        simp [monitorStep, if_pos hc, ha]
      · intro _
        simp [monitorStep, if_neg hc]
  · intro db w obsList
    induction obsList generalizing db w with
    | nil => rfl
    | cons f rest ih =>
      simp only [List.map_cons, List.cons_append, monitorLoop]
      exact ih _ _

/-- Witness for C9: an iteration observing no file does not invoke the
sync and leaves both the store and the watch state unchanged. -/
theorem C9_witness :
    monitorStep none initialWatchState none =
      ⟨none, initialWatchState, false⟩ :=
  C9_watch_loop_trigger.2.1 none initialWatchState none rfl

end CSVtoMySQL

